import Mathlib

/-!
Shallow embedding of the ternary Go package (src/ternary.go): Kleene
three-valued logic over the closed domain FALSE, UNKNOWN, TRUE, with the
conversions and logical operators of the library, and proofs of the
specified properties.
-/

namespace Ternary

/-- Go strings, as consumed and produced by the embedded functions. -/
abbrev GoString := String

/-- Go int64, embedded as unbounded integers: the functions below only
compare their argument with -1, 0 and 1 and format it in decimal, both of
which agree with int64 on its whole range. -/
abbrev GoInt := Int

/-- The truth-value enumeration `type Value int8` with the constants
FALSE = -1, UNKNOWN = 0, TRUE = 1 (ternary.go lines 79-85). -/
inductive Value where
  | FALSE
  | UNKNOWN
  | TRUE
deriving DecidableEq, Repr, Fintype

open Value

/-- `func (value Value) String() string` (ternary.go line 94): lookup in
the `literals` map, which sends each constant to its uppercase name. -/
def Value.String : Value → GoString
  | FALSE => "FALSE"
  | UNKNOWN => "UNKNOWN"
  | TRUE => "TRUE"

/-- `func (value Value) Int() int64` (ternary.go line 99): the reflective
read of the underlying int8, i.e. the numeric encoding -1, 0, 1. -/
def Value.Int : Value → GoInt
  | FALSE => -1
  | UNKNOWN => 0
  | TRUE => 1

/-- `func (value Value) ParseBool() bool` (ternary.go line 104). -/
def Value.ParseBool (value : Value) : Bool :=
  if value ≠ TRUE then false else true

/-- Models `strings.ToUpper` from the Go standard library on the ASCII
fragment: each letter a-z is replaced by its uppercase form. Go also
uppercases non-ASCII letters; no claim below depends on that range. -/
def goToUpper (s : GoString) : GoString :=
  ⟨s.data.map Char.toUpper⟩

/-- The lowercase hexadecimal digit for n < 16, as Go strconv prints it. -/
def hexDigit (n : Nat) : Char :=
  if n < 10 then Char.ofNat (48 + n) else Char.ofNat (87 + n)

/-- Models the escaping of one character inside `fmt.Sprintf` with verb %q
(Go strconv.Quote): double quote and backslash are backslash-escaped,
printable ASCII is kept verbatim, the named control escapes of Go are used
where they apply, and remaining ASCII control characters become a \x hex
escape. Characters above 0x7f are kept verbatim here; Go would escape the
non-printable ones among them, which no theorem below exercises. -/
def goEscapeChar (c : Char) : List Char :=
  if c = '"' ∨ c = '\\' then ['\\', c]
  else if 0x20 ≤ c.toNat ∧ c.toNat < 0x7f then [c]
  else if c.toNat = 7 then ['\\', 'a']
  else if c.toNat = 8 then ['\\', 'b']
  else if c.toNat = 12 then ['\\', 'f']
  else if c = '\n' then ['\\', 'n']
  else if c = '\r' then ['\\', 'r']
  else if c = '\t' then ['\\', 't']
  else if c.toNat = 11 then ['\\', 'v']
  else if c.toNat < 0x20 ∨ c.toNat = 0x7f then
    ['\\', 'x', hexDigit (c.toNat / 16), hexDigit (c.toNat % 16)]
  else [c]

/-- Models `fmt.Sprintf` with verb %q applied to a string: the argument as
a double-quoted Go string literal. -/
def goQuote (s : GoString) : GoString :=
  ⟨'"' :: (s.data.map goEscapeChar).flatten ++ ['"']⟩

/-- `func ConvertFromString(s string) (Value, error)` (ternary.go lines
116-126). The Go function returns a pair of a Value and an error; the
error is embedded as the message string that errors.New receives, `none`
standing for Go nil. -/
def ConvertFromString (s : GoString) : Value × Option GoString :=
  if goToUpper s = "FALSE" ∨ goToUpper s = "-1" then (FALSE, none)
  else if goToUpper s = "TRUE" ∨ goToUpper s = "1" then (TRUE, none)
  else if goToUpper s = "UNKNOWN" ∨ goToUpper s = "0" then (UNKNOWN, none)
  else (UNKNOWN, some ("convert from " ++ goQuote s ++ ": invalid value"))

/-- `func ConvertFromInt64(i int64) (Value, error)` (ternary.go lines
131-141). The %d rendering of an int64 agrees with `toString` on Int. -/
def ConvertFromInt64 (i : GoInt) : Value × Option GoString :=
  if i = -1 then (FALSE, none)
  else if i = 0 then (UNKNOWN, none)
  else if i = 1 then (TRUE, none)
  else (UNKNOWN, some ("convert from " ++ toString i ++ ": invalid value"))

/-- `func ConvertFromBool(b bool) Value` (ternary.go lines 145-150). -/
def ConvertFromBool (b : Bool) : Value :=
  if b then TRUE else FALSE

/-- `func Equal(a Value, b Value) Value` (ternary.go lines 153-158):
sameness of the two values, not logical equality. -/
def Equal (a : Value) (b : Value) : Value :=
  if a = b then TRUE else FALSE

/-- `func Not(a Value) Value` (ternary.go lines 161-169). -/
def Not (a : Value) : Value :=
  if a = FALSE then TRUE
  else if a = TRUE then FALSE
  else UNKNOWN

/-- `func And(a Value, b Value) Value` (ternary.go lines 172-180). -/
def And (a : Value) (b : Value) : Value :=
  if a = FALSE ∨ b = FALSE then FALSE
  else if a = UNKNOWN ∨ b = UNKNOWN then UNKNOWN
  else TRUE

/-- `func Or(a Value, b Value) Value` (ternary.go lines 183-191). -/
def Or (a : Value) (b : Value) : Value :=
  if a = TRUE ∨ b = TRUE then TRUE
  else if a = UNKNOWN ∨ b = UNKNOWN then UNKNOWN
  else FALSE

/-- `func Imp(a Value, b Value) Value` (ternary.go lines 194-196). -/
def Imp (a : Value) (b : Value) : Value :=
  Or (Not a) b

/-- `func Eqv(a Value, b Value) Value` (ternary.go lines 199-204). -/
def Eqv (a : Value) (b : Value) : Value :=
  if a = UNKNOWN ∨ b = UNKNOWN then UNKNOWN
  else ConvertFromBool (a == b)

/-- The loop of `All` (ternary.go lines 212-217): running value t over the
remaining elements, returning FALSE early the moment t becomes FALSE. -/
def allLoop : Value → List Value → Value
  | t, [] => t
  | t, v :: rest =>
    if And t v = FALSE then FALSE else allLoop (And t v) rest

/-- `func All(values []Value) Value` (ternary.go lines 207-219): t starts
as TRUE, is replaced by the first element when one exists, and the loop
runs over the elements from index 1. -/
def All (values : List Value) : Value :=
  match values with
  | [] => TRUE
  | v :: rest => allLoop v rest

/-- The loop of `Any` (ternary.go lines 227-232): running value t over the
remaining elements, returning TRUE early the moment t becomes TRUE. -/
def anyLoop : Value → List Value → Value
  | t, [] => t
  | t, v :: rest =>
    if Or t v = TRUE then TRUE else anyLoop (Or t v) rest

/-- `func Any(values []Value) Value` (ternary.go lines 222-234). -/
def Any (values : List Value) : Value :=
  match values with
  | [] => FALSE
  | v :: rest => anyLoop v rest

/-- The biconditional written as the formula OR(AND(A, B), AND(NOT(A),
NOT(B))) given in the package truth-table comment (ternary.go line 57),
for comparison with the direct definition `Eqv`. -/
def EqvFormula (a : Value) (b : Value) : Value :=
  Or (And a b) (And (Not a) (Not b))

/-- C1: And is the minimum and Or the maximum of its two operands under
the order FALSE < UNKNOWN < TRUE (compared through the integer encoding),
and the stated case analysis holds: And is FALSE when either operand is
FALSE, otherwise UNKNOWN when either is UNKNOWN, otherwise TRUE; dually
for Or with TRUE dominating. -/
theorem and_min_or_max : ∀ a b : Value,
    (And a b = if a.Int ≤ b.Int then a else b) ∧
    (Or a b = if a.Int ≤ b.Int then b else a) ∧
    ((a = FALSE ∨ b = FALSE) → And a b = FALSE) ∧
    (a ≠ FALSE → b ≠ FALSE → (a = UNKNOWN ∨ b = UNKNOWN) → And a b = UNKNOWN) ∧
    (a ≠ FALSE → b ≠ FALSE → a ≠ UNKNOWN → b ≠ UNKNOWN → And a b = TRUE) ∧
    ((a = TRUE ∨ b = TRUE) → Or a b = TRUE) ∧
    (a ≠ TRUE → b ≠ TRUE → (a = UNKNOWN ∨ b = UNKNOWN) → Or a b = UNKNOWN) ∧
    (a ≠ TRUE → b ≠ TRUE → a ≠ UNKNOWN → b ≠ UNKNOWN → Or a b = FALSE) := by
  intro a b
  cases a <;> cases b <;>
    exact ⟨by decide, by decide, by decide, by decide, by decide, by decide,
      by decide, by decide⟩

/-- Witness for C1 at concrete operands, discharging every hypothesis. -/
theorem and_min_or_max_witness :
    And FALSE UNKNOWN = FALSE ∧ And UNKNOWN TRUE = UNKNOWN ∧
    And TRUE TRUE = TRUE ∧ Or TRUE UNKNOWN = TRUE ∧
    Or UNKNOWN FALSE = UNKNOWN ∧ Or FALSE FALSE = FALSE :=
  ⟨(and_min_or_max FALSE UNKNOWN).2.2.1 (by decide),
   (and_min_or_max UNKNOWN TRUE).2.2.2.1 (by decide) (by decide) (by decide),
   (and_min_or_max TRUE TRUE).2.2.2.2.1 (by decide) (by decide) (by decide) (by decide),
   (and_min_or_max TRUE UNKNOWN).2.2.2.2.2.1 (by decide),
   (and_min_or_max UNKNOWN FALSE).2.2.2.2.2.2.1 (by decide) (by decide) (by decide),
   (and_min_or_max FALSE FALSE).2.2.2.2.2.2.2 (by decide) (by decide) (by decide) (by decide)⟩

/-- C3: Imp a b equals Or (Not a) b, FALSE implies anything, TRUE implies
b gives b, and UNKNOWN implies b is UNKNOWN except that UNKNOWN implies
TRUE is TRUE. -/
theorem imp_or_not : ∀ a b : Value,
    (Imp a b = Or (Not a) b) ∧
    (Imp FALSE b = TRUE) ∧
    (Imp TRUE b = b) ∧
    (b ≠ TRUE → Imp UNKNOWN b = UNKNOWN) ∧
    (Imp UNKNOWN TRUE = TRUE) := by
  decide

/-- Witness for C3 at concrete operands, discharging the hypothesis. -/
theorem imp_or_not_witness : Imp UNKNOWN UNKNOWN = UNKNOWN :=
  (imp_or_not TRUE UNKNOWN).2.2.2.1 (by decide)

/-- C4: Eqv is UNKNOWN whenever either operand is UNKNOWN; otherwise it is
TRUE exactly when the operands are the same member and FALSE otherwise. -/
theorem eqv_unknown_propagation : ∀ a b : Value,
    ((a = UNKNOWN ∨ b = UNKNOWN) → Eqv a b = UNKNOWN) ∧
    (a ≠ UNKNOWN → b ≠ UNKNOWN → Eqv a b = if a = b then TRUE else FALSE) := by
  decide

/-- Witness for C4 at concrete operands, discharging the hypotheses. -/
theorem eqv_unknown_propagation_witness :
    Eqv UNKNOWN TRUE = UNKNOWN ∧ Eqv FALSE FALSE = TRUE :=
  ⟨(eqv_unknown_propagation UNKNOWN TRUE).1 (by decide),
   (eqv_unknown_propagation FALSE FALSE).2 (by decide) (by decide)⟩

/-- C5: Equal returns TRUE when its operands are the same member and FALSE
otherwise; it is never UNKNOWN, and Equal UNKNOWN UNKNOWN is TRUE. -/
theorem equal_identity : ∀ a b : Value,
    (Equal a b = if a = b then TRUE else FALSE) ∧
    (Equal a b = TRUE ∨ Equal a b = FALSE) ∧
    Equal UNKNOWN UNKNOWN = TRUE := by
  decide

/-- C8: both De Morgan laws hold for every pair of values. -/
theorem de_morgan : ∀ a b : Value,
    Not (And a b) = Or (Not a) (Not b) ∧
    Not (Or a b) = And (Not a) (Not b) := by
  decide

/-- C9: the direct definition of the biconditional coincides with its
formula form OR(AND(a, b), AND(NOT(a), NOT(b))) on every pair. -/
theorem eqv_eq_formula : ∀ a b : Value, Eqv a b = EqvFormula a b := by
  decide

/-- TRUE is a left identity of And. -/
theorem and_true_left (v : Value) : And TRUE v = v := by
  cases v <;> rfl

/-- FALSE is left absorbing for And. -/
theorem and_false_left (v : Value) : And FALSE v = FALSE := by
  cases v <;> rfl

/-- FALSE is a left identity of Or. -/
theorem or_false_left (v : Value) : Or FALSE v = v := by
  cases v <;> rfl

/-- TRUE is left absorbing for Or. -/
theorem or_true_left (v : Value) : Or TRUE v = TRUE := by
  cases v <;> rfl

/-- Folding And from FALSE stays FALSE over any tail. -/
theorem foldl_and_false (l : List Value) : List.foldl And FALSE l = FALSE := by
  induction l with
  | nil => rfl
  | cons v rest ih => rw [List.foldl_cons, and_false_left]; exact ih

/-- Folding Or from TRUE stays TRUE over any tail. -/
theorem foldl_or_true (l : List Value) : List.foldl Or TRUE l = TRUE := by
  induction l with
  | nil => rfl
  | cons v rest ih => rw [List.foldl_cons, or_true_left]; exact ih

/-- The early-exiting loop of All agrees with the plain left fold of And. -/
theorem allLoop_eq_foldl : ∀ (l : List Value) (t : Value),
    allLoop t l = List.foldl And t l := by
  intro l
  induction l with
  | nil => intro t; rfl
  | cons v rest ih =>
    intro t
    simp only [allLoop, List.foldl_cons]
    by_cases h : And t v = FALSE
    · rw [if_pos h, h, foldl_and_false]
    · rw [if_neg h, ih]

/-- The early-exiting loop of Any agrees with the plain left fold of Or. -/
theorem anyLoop_eq_foldl : ∀ (l : List Value) (t : Value),
    anyLoop t l = List.foldl Or t l := by
  intro l
  induction l with
  | nil => intro t; rfl
  | cons v rest ih =>
    intro t
    simp only [anyLoop, List.foldl_cons]
    by_cases h : Or t v = TRUE
    · rw [if_pos h, h, foldl_or_true]
    · rw [if_neg h, ih]

/-- C2: All is the left-to-right fold of And starting from TRUE, Any is
the left-to-right fold of Or starting from FALSE, and on the empty
sequence they return TRUE and FALSE respectively. -/
theorem all_any_foldl : ∀ values : List Value,
    All values = List.foldl And TRUE values ∧
    Any values = List.foldl Or FALSE values ∧
    All [] = TRUE ∧ Any [] = FALSE := by
  intro values
  refine ⟨?_, ?_, rfl, rfl⟩
  · cases values with
    | nil => rfl
    | cons v rest =>
      simp only [All, List.foldl_cons, and_true_left]
      exact allLoop_eq_foldl rest v
  · cases values with
    | nil => rfl
    | cons v rest =>
      simp only [Any, List.foldl_cons, or_false_left]
      exact anyLoop_eq_foldl rest v

/-- C7: converting a value to its integer encoding and back, and to its
display string and back, both succeed and are the identity. -/
theorem convert_roundtrip : ∀ v : Value,
    ConvertFromInt64 v.Int = (v, none) ∧
    ConvertFromString v.String = (v, none) := by
  decide

/-- The four exhaustive branch outcomes of ConvertFromString. -/
theorem convert_string_branches (s : GoString) :
    ConvertFromString s = (FALSE, none) ∨ ConvertFromString s = (TRUE, none) ∨
    ConvertFromString s = (UNKNOWN, none) ∨
    ConvertFromString s =
      (UNKNOWN, some ("convert from " ++ goQuote s ++ ": invalid value")) := by
  unfold ConvertFromString
  by_cases h1 : goToUpper s = "FALSE" ∨ goToUpper s = "-1"
  · rw [if_pos h1]; exact .inl rfl
  · rw [if_neg h1]
    by_cases h2 : goToUpper s = "TRUE" ∨ goToUpper s = "1"
    · rw [if_pos h2]; exact .inr (.inl rfl)
    · rw [if_neg h2]
      by_cases h3 : goToUpper s = "UNKNOWN" ∨ goToUpper s = "0"
      · rw [if_pos h3]; exact .inr (.inr (.inl rfl))
      · rw [if_neg h3]; exact .inr (.inr (.inr rfl))

/-- The four exhaustive branch outcomes of ConvertFromInt64. -/
theorem convert_int_branches (i : GoInt) :
    ConvertFromInt64 i = (FALSE, none) ∨ ConvertFromInt64 i = (UNKNOWN, none) ∨
    ConvertFromInt64 i = (TRUE, none) ∨
    ConvertFromInt64 i =
      (UNKNOWN, some ("convert from " ++ toString i ++ ": invalid value")) := by
  unfold ConvertFromInt64
  by_cases h1 : i = -1
  · rw [if_pos h1]; exact .inl rfl
  · rw [if_neg h1]
    by_cases h2 : i = 0
    · rw [if_pos h2]; exact .inr (.inl rfl)
    · rw [if_neg h2]
      by_cases h3 : i = 1
      · rw [if_pos h3]; exact .inr (.inr (.inl rfl))
      · rw [if_neg h3]; exact .inr (.inr (.inr rfl))

/-- ConvertFromString returns a nil error exactly when the uppercased
input is one of the six recognized literals. -/
theorem convert_string_none_iff (s : GoString) :
    ((ConvertFromString s).2 = none ↔
      (goToUpper s = "FALSE" ∨ goToUpper s = "-1" ∨ goToUpper s = "UNKNOWN" ∨
       goToUpper s = "0" ∨ goToUpper s = "TRUE" ∨ goToUpper s = "1")) := by
  unfold ConvertFromString
  by_cases h1 : goToUpper s = "FALSE" ∨ goToUpper s = "-1"
  · rw [if_pos h1]
    exact ⟨fun _ => by tauto, fun _ => rfl⟩
  · rw [if_neg h1]
    by_cases h2 : goToUpper s = "TRUE" ∨ goToUpper s = "1"
    · rw [if_pos h2]
      exact ⟨fun _ => by tauto, fun _ => rfl⟩
    · rw [if_neg h2]
      by_cases h3 : goToUpper s = "UNKNOWN" ∨ goToUpper s = "0"
      · rw [if_pos h3]
        exact ⟨fun _ => by tauto, fun _ => rfl⟩
      · rw [if_neg h3]
        exact ⟨fun hn => absurd hn (by simp), fun hor => absurd hor (by tauto)⟩

/-- ConvertFromInt64 returns a nil error exactly on -1, 0 and 1. -/
theorem convert_int_none_iff (i : GoInt) :
    ((ConvertFromInt64 i).2 = none ↔ (i = -1 ∨ i = 0 ∨ i = 1)) := by
  unfold ConvertFromInt64
  by_cases h1 : i = -1
  · rw [if_pos h1]
    exact ⟨fun _ => by tauto, fun _ => rfl⟩
  · rw [if_neg h1]
    by_cases h2 : i = 0
    · rw [if_pos h2]
      exact ⟨fun _ => by tauto, fun _ => rfl⟩
    · rw [if_neg h2]
      by_cases h3 : i = 1
      · rw [if_pos h3]
        exact ⟨fun _ => by tauto, fun _ => rfl⟩
      · rw [if_neg h3]
        exact ⟨fun hn => absurd hn (by simp), fun hor => absurd hor (by tauto)⟩

/-- A printable ASCII character other than the double quote and the
backslash escapes to itself under %q. -/
theorem goEscapeChar_id (c : Char) (h1 : 0x20 ≤ c.toNat) (h2 : c.toNat < 0x7f)
    (h3 : c ≠ '"') (h4 : c ≠ '\\') : goEscapeChar c = [c] := by
  have hq : ¬(c = '"' ∨ c = '\\') := by
    rintro (hc | hc)
    · exact h3 hc
    · exact h4 hc
  unfold goEscapeChar
  rw [if_neg hq, if_pos ⟨h1, h2⟩]

/-- Over printable ASCII without quote and backslash, the quoted body of
%q is the original character list. -/
theorem flatten_map_goEscapeChar (l : List Char)
    (h : ∀ c ∈ l, (0x20 ≤ c.toNat ∧ c.toNat < 0x7f) ∧ c ≠ '"' ∧ c ≠ '\\') :
    (l.map goEscapeChar).flatten = l := by
  induction l with
  | nil => rfl
  | cons c rest ih =>
    obtain ⟨⟨h1, h2⟩, h3, h4⟩ := h c (by simp)
    rw [List.map_cons, List.flatten_cons, goEscapeChar_id c h1 h2 h3 h4,
      ih (fun d hd => h d (by simp [hd]))]
    rfl

/-- On failure the ConvertFromString message contains the input verbatim
whenever the input is printable ASCII without quote and backslash. -/
theorem convert_string_err_infix (s m : GoString)
    (hm : (ConvertFromString s).2 = some m)
    (hp : ∀ c ∈ s.data, (0x20 ≤ c.toNat ∧ c.toNat < 0x7f) ∧ c ≠ '"' ∧ c ≠ '\\') :
    List.IsInfix s.data m.data := by
  rcases convert_string_branches s with hb | hb | hb | hb <;> rw [hb] at hm
  · exact absurd hm (by simp)
  · exact absurd hm (by simp)
  · exact absurd hm (by simp)
  · have hmsg := Option.some.inj hm
    subst hmsg
    have hq : (goQuote s).data = '"' :: s.data ++ ['"'] := by
      show '"' :: (s.data.map goEscapeChar).flatten ++ ['"'] = '"' :: s.data ++ ['"']
      rw [flatten_map_goEscapeChar s.data hp]
    refine ⟨String.data ("convert from ") ++ ['"'],
      '"' :: String.data (": invalid value"), ?_⟩
    simp only [String.data_append, hq]
    simp [List.append_assoc]

/-- On failure the ConvertFromInt64 message contains the decimal form of
the offending integer. -/
theorem convert_int_err_infix (i : GoInt) (m : GoString)
    (hm : (ConvertFromInt64 i).2 = some m) :
    List.IsInfix (toString i).data m.data := by
  rcases convert_int_branches i with hb | hb | hb | hb <;> rw [hb] at hm
  · exact absurd hm (by simp)
  · exact absurd hm (by simp)
  · exact absurd hm (by simp)
  · have hmsg := Option.some.inj hm
    subst hmsg
    refine ⟨String.data ("convert from "), String.data (": invalid value"), ?_⟩
    simp [String.data_append, List.append_assoc]

/-- C6 as stated is false on the code: for the one-character input
consisting of a newline, ConvertFromString fails, but fmt %q renders the
newline as the two characters backslash and n, so the original unmodified
input does not occur anywhere in the error message. -/
theorem convert_error_counterexample :
    (ConvertFromString ("\n")).2 =
      some ("convert from \"\\n\": invalid value") ∧
    ¬ List.IsInfix (String.data ("\n"))
      (String.data ("convert from \"\\n\": invalid value")) := by
  constructor
  · decide
  · decide

/-- C6 (amended): ConvertFromString succeeds exactly when the uppercased
input is one of the six literals, with the stated mapping, and
ConvertFromInt64 succeeds exactly on -1, 0 and 1; every other input fails
with an error alongside which no successful value is returned; the
ConvertFromInt64 message contains the offending integer in decimal, and
the ConvertFromString message contains the %q-quoted form of the
offending input, which contains the original input verbatim whenever the
input consists of printable ASCII characters other than the double quote
and the backslash. -/
theorem convert_spec_amended :
    ∀ (s : GoString) (i : GoInt) (m : GoString),
    ((ConvertFromString s).2 = none ↔
      (goToUpper s = "FALSE" ∨ goToUpper s = "-1" ∨ goToUpper s = "UNKNOWN" ∨
       goToUpper s = "0" ∨ goToUpper s = "TRUE" ∨ goToUpper s = "1")) ∧
    ((goToUpper s = "FALSE" ∨ goToUpper s = "-1") →
      ConvertFromString s = (FALSE, none)) ∧
    ((goToUpper s = "UNKNOWN" ∨ goToUpper s = "0") →
      ConvertFromString s = (UNKNOWN, none)) ∧
    ((goToUpper s = "TRUE" ∨ goToUpper s = "1") →
      ConvertFromString s = (TRUE, none)) ∧
    ((ConvertFromInt64 i).2 = none ↔ (i = -1 ∨ i = 0 ∨ i = 1)) ∧
    (i = -1 → ConvertFromInt64 i = (FALSE, none)) ∧
    (i = 0 → ConvertFromInt64 i = (UNKNOWN, none)) ∧
    (i = 1 → ConvertFromInt64 i = (TRUE, none)) ∧
    ((ConvertFromInt64 i).2 = some m →
      List.IsInfix (toString i).data m.data) ∧
    ((ConvertFromString s).2 = some m →
      (∀ c ∈ s.data, (0x20 ≤ c.toNat ∧ c.toNat < 0x7f) ∧ c ≠ '"' ∧ c ≠ '\\') →
      List.IsInfix s.data m.data) := by
  intro s i m
  refine ⟨convert_string_none_iff s, ?_, ?_, ?_, convert_int_none_iff i,
    fun h => by subst h; decide, fun h => by subst h; decide,
    fun h => by subst h; decide, convert_int_err_infix i m,
    convert_string_err_infix s m⟩
  · intro h
    unfold ConvertFromString
    rw [if_pos h]
  · intro h
    unfold ConvertFromString
    rw [if_neg (by rcases h with h | h <;> rw [h] <;> decide),
      if_neg (by rcases h with h | h <;> rw [h] <;> decide), if_pos h]
  · intro h
    unfold ConvertFromString
    rw [if_neg (by rcases h with h | h <;> rw [h] <;> decide), if_pos h]

/-- Witness for the amended C6 at concrete inputs, discharging every
hypothesis of the applied conjuncts. -/
theorem convert_spec_amended_witness :
    ConvertFromString ("true") = (TRUE, none) ∧
    ConvertFromInt64 (-1) = (FALSE, none) ∧
    List.IsInfix (String.data (toString (12345 : GoInt)))
      (String.data ("convert from 12345: invalid value")) ∧
    List.IsInfix (String.data ("ParseError"))
      (String.data ("convert from \"ParseError\": invalid value")) :=
  ⟨(convert_spec_amended ("true") 0 ("")).2.2.2.1 (by decide),
   (convert_spec_amended ("") (-1) ("")).2.2.2.2.2.1 (by decide),
   (convert_spec_amended ("") 12345
      ("convert from 12345: invalid value")).2.2.2.2.2.2.2.2.1 (by decide),
   (convert_spec_amended ("ParseError") 0
      ("convert from \"ParseError\": invalid value")).2.2.2.2.2.2.2.2.2
     (by decide) (by decide)⟩

/-- C10: whenever a conversion fails, the Value component returned
alongside the error is UNKNOWN, for both conversion functions. -/
theorem failure_value_unknown : ∀ (s : GoString) (i : GoInt),
    ((ConvertFromString s).2 ≠ none → (ConvertFromString s).1 = UNKNOWN) ∧
    ((ConvertFromInt64 i).2 ≠ none → (ConvertFromInt64 i).1 = UNKNOWN) := by
  intro s i
  constructor
  · intro h
    rcases convert_string_branches s with hb | hb | hb | hb <;> rw [hb] at h ⊢
    · exact absurd rfl h
    · exact absurd rfl h
  · intro h
    rcases convert_int_branches i with hb | hb | hb | hb <;> rw [hb] at h ⊢
    · exact absurd rfl h
    · exact absurd rfl h

/-- Witness for C10 at concrete failing inputs. -/
theorem failure_value_unknown_witness :
    (ConvertFromString ("oops")).1 = UNKNOWN ∧
    (ConvertFromInt64 7).1 = UNKNOWN :=
  ⟨(failure_value_unknown ("oops") 7).1 (by decide),
   (failure_value_unknown ("oops") 7).2 (by decide)⟩

end Ternary
